import Mathlib

/-!
A shallow embedding of the SPI access layer in src/jni/spi.c.

The kernel and device behaviour reached through open/ioctl/close is
modelled by an explicit environment (SpiEnv); each C function becomes a
Lean function from that environment and its C arguments to its C return
value together with the list of system calls it issued (its trace).
Byte and word arguments model the C types uint8_t and uint32_t via
mod 256 and mod 2 ^ 32 at the points where the source stores them into
an unsigned char or passes them onward.
-/

/-- The fields of struct spi_ioc_transfer that spiTransfer assigns.
tx_buf and rx_buf carry the contents of the buffers the two C pointers
point at, so rx_buf.length is the capacity of the receive buffer the
kernel is told to fill with len received bytes. -/
structure SpiIocTransfer where
  tx_buf : List Nat
  rx_buf : List Nat
  len : Nat
  speed_hz : Nat
  bits_per_word : Nat
deriving DecidableEq

/-- One system call issued by the wrapper: open(2), one of the seven
ioctl(2) requests the source uses, or close(2). -/
inductive SysEvent where
  | openCall (path : List Char)
  | ioctlWrMode (fd mode : Nat)
  | ioctlRdMode (fd : Nat)
  | ioctlWrSpeed (fd speed : Nat)
  | ioctlRdSpeed (fd : Nat)
  | ioctlWrBpw (fd bpw : Nat)
  | ioctlRdBpw (fd : Nat)
  | ioctlMessage (fd : Nat) (t : SpiIocTransfer)
  | closeCall (fd : Nat)
deriving DecidableEq

/-- Recognises the close(2) event, to state that a trace releases
(or fails to release) a file descriptor. -/
def SysEvent.isClose : SysEvent → Bool
  | .closeCall _ => true
  | _ => false

/-- The environment: how the operating system and the device answer each
system call the wrapper can make.  openResult gives the descriptor for a
path (none = open fails), each wr/rd pair answers the corresponding
configuration ioctl (the rd answer is the value the kernel writes back),
and message answers SPI_IOC_MESSAGE(1) with the bytes the device shifted
in (none = the ioctl fails). -/
structure SpiEnv where
  openResult : List Char → Option Nat
  wrMode : Nat → Nat → Bool
  rdMode : Nat → Option Nat
  wrSpeed : Nat → Nat → Bool
  rdSpeed : Nat → Option Nat
  wrBpw : Nat → Nat → Bool
  rdBpw : Nat → Option Nat
  message : Nat → SpiIocTransfer → Option (List Nat)

/-- MAX_PATH from spi.c: the size of the stack buffer spiOpen formats the
device path into. -/
def MAX_PATH : Nat := 50

/-- Model of snprintf(buf, size, ...): the formatted string truncated to
at most size - 1 characters (the last byte is kept for the terminator). -/
def snprintfModel (size : Nat) (s : List Char) : List Char :=
  s.take (size - 1)

/-- The characters produced by formatting "/dev/spidev%d.%d" with the two
decimal numbers bus and device. -/
def devPathChars (bus device : Nat) : List Char :=
  "/dev/spidev".toList ++ Nat.toDigits 10 bus ++ ['.'] ++ Nat.toDigits 10 device

/-- The contents of fsBuf after the snprintf call in spiOpen. -/
def fsBuf (bus device : Nat) : List Char :=
  snprintfModel MAX_PATH (devPathChars bus device)

/-- spiTransfer from spi.c: builds a spi_ioc_transfer with the given
buffers and length and the hard-coded speed_hz = 10000 and
bits_per_word = 8, then issues SPI_IOC_MESSAGE(1).  Returns the C return
value (0 ok, -1 the ioctl failed), the contents of the receive buffer
after the call (the kernel writes len received bytes into it on success;
on failure it is left as it was), and the trace. -/
def spiTransfer (env : SpiEnv) (spiFD : Nat) (tx rx : List Nat) (len : Nat) :
    Int × List Nat × List SysEvent :=
  let transfer : SpiIocTransfer := ⟨tx, rx, len, 10000, 8⟩
  match env.message spiFD transfer with
  | none => (-1, rx, [SysEvent.ioctlMessage spiFD transfer])
  | some resp => (0, resp.take len ++ rx.drop len, [SysEvent.ioctlMessage spiFD transfer])

/-- spiReadByte from spi.c: tx = [0x80 | regAdd, 0], rx zeroed, 2-byte
transfer; returns rx[1].  The result of spiTransfer is ignored, exactly
as in the source. -/
def spiReadByte (env : SpiEnv) (spiFD regAdd : Nat) : Int × List SysEvent :=
  let tx : List Nat := [(0x80 ||| regAdd) % 256, 0]
  let rx : List Nat := [0, 0]
  let (_, rxAfter, evs) := spiTransfer env spiFD tx rx 2
  ((rxAfter.getD 1 0 : Nat), evs)

/-- spiReadBytes from spi.c: tx is len + 1 zeroed bytes with
tx[0] = 0x80 | 0x40 | startAdd, rx is an uninitialized stack array of
len + 1 bytes (its arbitrary initial contents are the rxStack argument);
after a (len + 1)-byte transfer the function returns the malloc-ed copy
of rx[1 .. len].  The result of spiTransfer is ignored, exactly as in
the source. -/
def spiReadBytes (env : SpiEnv) (spiFD len startAdd : Nat) (rxStack : List Nat) :
    List Nat × List SysEvent :=
  let tx : List Nat := (List.replicate (len + 1) 0).set 0 ((0x80 ||| 0x40 ||| startAdd) % 256)
  let (_, rxAfter, evs) := spiTransfer env spiFD tx rxStack (len + 1)
  ((rxAfter.drop 1).take len, evs)

/-- spiWriteRegByte from spi.c: tx = [regAdd, data], rx zeroed, 2-byte
transfer, unconditional return 0 (the result of spiTransfer is ignored,
exactly as in the source). -/
def spiWriteRegByte (env : SpiEnv) (spiFD regAdd data : Nat) : Int × List SysEvent :=
  let tx : List Nat := [regAdd % 256, data % 256]
  let rx : List Nat := [0, 0]
  let (_, _, evs) := spiTransfer env spiFD tx rx 2
  (0, evs)

/-- spiWriteBytes from spi.c: transfers len bytes from data, with the
single byte variable null (= 0x00) as the receive buffer, and returns 0
unconditionally. -/
def spiWriteBytes (env : SpiEnv) (spiFD : Nat) (data : List Nat) (len : Nat) :
    Int × List SysEvent :=
  let (_, _, evs) := spiTransfer env spiFD data [0x00] len
  (0, evs)

/-- spiSetMode from spi.c: SPI_IOC_WR_MODE then SPI_IOC_RD_MODE on the
same storage; -1 as soon as one ioctl fails, else 0.  The value the read
back writes into mode is never inspected. -/
def spiSetMode (env : SpiEnv) (spiFD mode : Nat) : Int × List SysEvent :=
  if env.wrMode spiFD (mode % 256) = false then
    (-1, [SysEvent.ioctlWrMode spiFD (mode % 256)])
  else
    match env.rdMode spiFD with
    | none => (-1, [SysEvent.ioctlWrMode spiFD (mode % 256), SysEvent.ioctlRdMode spiFD])
    | some _ => (0, [SysEvent.ioctlWrMode spiFD (mode % 256), SysEvent.ioctlRdMode spiFD])

/-- spiSetSpeed from spi.c: SPI_IOC_WR_MAX_SPEED_HZ then
SPI_IOC_RD_MAX_SPEED_HZ; -1 as soon as one ioctl fails, else 0.  The
value written back is never inspected. -/
def spiSetSpeed (env : SpiEnv) (spiFD speed : Nat) : Int × List SysEvent :=
  if env.wrSpeed spiFD (speed % 2 ^ 32) = false then
    (-1, [SysEvent.ioctlWrSpeed spiFD (speed % 2 ^ 32)])
  else
    match env.rdSpeed spiFD with
    | none => (-1, [SysEvent.ioctlWrSpeed spiFD (speed % 2 ^ 32), SysEvent.ioctlRdSpeed spiFD])
    | some _ => (0, [SysEvent.ioctlWrSpeed spiFD (speed % 2 ^ 32), SysEvent.ioctlRdSpeed spiFD])

/-- spiSetBitsPerWord from spi.c: SPI_IOC_WR_BITS_PER_WORD then
SPI_IOC_RD_BITS_PER_WORD; -1 as soon as one ioctl fails, else 0.  The
value written back is never inspected. -/
def spiSetBitsPerWord (env : SpiEnv) (spiFD bpw : Nat) : Int × List SysEvent :=
  if env.wrBpw spiFD (bpw % 256) = false then
    (-1, [SysEvent.ioctlWrBpw spiFD (bpw % 256)])
  else
    match env.rdBpw spiFD with
    | none => (-1, [SysEvent.ioctlWrBpw spiFD (bpw % 256), SysEvent.ioctlRdBpw spiFD])
    | some _ => (0, [SysEvent.ioctlWrBpw spiFD (bpw % 256), SysEvent.ioctlRdBpw spiFD])

/-- spiOpen from spi.c: snprintf the /dev/spidevB.D path into fsBuf,
open it, and on success apply mode, speed and bits per word in that
order, returning -1 as soon as any step fails, else the descriptor.  No
close is ever issued on the early-return paths, exactly as in the
source. -/
def spiOpen (env : SpiEnv) (bus device speed mode bpw : Nat) : Int × List SysEvent :=
  let path := fsBuf (bus % 256) (device % 256)
  match env.openResult path with
  | none => (-1, [SysEvent.openCall path])
  | some spiFD =>
    let (r1, e1) := spiSetMode env spiFD mode
    if r1 = -1 then (-1, SysEvent.openCall path :: e1)
    else
      let (r2, e2) := spiSetSpeed env spiFD speed
      if r2 = -1 then (-1, SysEvent.openCall path :: (e1 ++ e2))
      else
        let (r3, e3) := spiSetBitsPerWord env spiFD bpw
        if r3 = -1 then (-1, SysEvent.openCall path :: (e1 ++ e2 ++ e3))
        else ((spiFD : Int), SysEvent.openCall path :: (e1 ++ e2 ++ e3))

/-- spiClose from spi.c: close(2) on the descriptor. -/
def spiClose (spiFD : Nat) : List SysEvent :=
  [SysEvent.closeCall spiFD]

/-! Concrete environments used to evaluate the model on concrete runs. -/

/-- A fully cooperative device: open always yields descriptor 3, every
configuration ioctl succeeds (reading back 0), and every transfer
succeeds, the device shifting in len zero bytes. -/
def envZeroOk : SpiEnv where
  openResult := fun _ => some 3
  wrMode := fun _ _ => true
  rdMode := fun _ => some 0
  wrSpeed := fun _ _ => true
  rdSpeed := fun _ => some 0
  wrBpw := fun _ _ => true
  rdBpw := fun _ => some 0
  message := fun _ t => some (List.replicate t.len 0)

/-- Like envZeroOk, except every SPI_IOC_MESSAGE ioctl fails. -/
def envXferFail : SpiEnv where
  openResult := fun _ => some 3
  wrMode := fun _ _ => true
  rdMode := fun _ => some 0
  wrSpeed := fun _ _ => true
  rdSpeed := fun _ => some 0
  wrBpw := fun _ _ => true
  rdBpw := fun _ => some 0
  message := fun _ _ => none

/-- Open fails for every path; everything else would succeed. -/
def envOpenFail : SpiEnv where
  openResult := fun _ => none
  wrMode := fun _ _ => true
  rdMode := fun _ => some 0
  wrSpeed := fun _ _ => true
  rdSpeed := fun _ => some 0
  wrBpw := fun _ _ => true
  rdBpw := fun _ => some 0
  message := fun _ t => some (List.replicate t.len 0)

/-- Open yields descriptor 3, but the SPI_IOC_WR_MODE ioctl fails. -/
def envModeFail : SpiEnv where
  openResult := fun _ => some 3
  wrMode := fun _ _ => false
  rdMode := fun _ => some 0
  wrSpeed := fun _ _ => true
  rdSpeed := fun _ => some 0
  wrBpw := fun _ _ => true
  rdBpw := fun _ => some 0
  message := fun _ t => some (List.replicate t.len 0)

/-- Every transfer answers with the fixed 4-byte pattern
[0xAA, 1, 2, 3]; configuration always succeeds. -/
def envPattern : SpiEnv where
  openResult := fun _ => some 3
  wrMode := fun _ _ => true
  rdMode := fun _ => some 0
  wrSpeed := fun _ _ => true
  rdSpeed := fun _ => some 0
  wrBpw := fun _ _ => true
  rdBpw := fun _ => some 0
  message := fun _ _ => some [0xAA, 1, 2, 3]

/-- Configuration write ioctls succeed, and every read-back returns the
value 99 regardless of what was just written. -/
def envMismatch : SpiEnv where
  openResult := fun _ => some 3
  wrMode := fun _ _ => true
  rdMode := fun _ => some 99
  wrSpeed := fun _ _ => true
  rdSpeed := fun _ => some 99
  wrBpw := fun _ _ => true
  rdBpw := fun _ => some 99
  message := fun _ t => some (List.replicate t.len 0)


/-! Helper lemmas about the traces and results of the embedded functions. -/

lemma spiTransfer_trace (env : SpiEnv) (fd : Nat) (tx rx : List Nat) (len : Nat) :
    (spiTransfer env fd tx rx len).2.2 = [SysEvent.ioctlMessage fd ⟨tx, rx, len, 10000, 8⟩] := by
  unfold spiTransfer
  rcases h : env.message fd ⟨tx, rx, len, 10000, 8⟩ with _ | resp <;> simp [h]

lemma spiTransfer_ok (env : SpiEnv) (fd : Nat) (tx rx : List Nat) (len : Nat)
    (resp : List Nat) (h : env.message fd ⟨tx, rx, len, 10000, 8⟩ = some resp) :
    spiTransfer env fd tx rx len =
      (0, resp.take len ++ rx.drop len, [SysEvent.ioctlMessage fd ⟨tx, rx, len, 10000, 8⟩]) := by
  unfold spiTransfer
  simp [h]

lemma spiTransfer_err (env : SpiEnv) (fd : Nat) (tx rx : List Nat) (len : Nat)
    (h : env.message fd ⟨tx, rx, len, 10000, 8⟩ = none) :
    spiTransfer env fd tx rx len =
      (-1, rx, [SysEvent.ioctlMessage fd ⟨tx, rx, len, 10000, 8⟩]) := by
  unfold spiTransfer
  simp [h]

@[simp]
lemma isClose_openCall (p : List Char) : (SysEvent.openCall p).isClose = false := rfl

@[simp]
lemma isClose_ioctlWrMode (fd m : Nat) : (SysEvent.ioctlWrMode fd m).isClose = false := rfl

@[simp]
lemma isClose_ioctlRdMode (fd : Nat) : (SysEvent.ioctlRdMode fd).isClose = false := rfl

@[simp]
lemma isClose_ioctlWrSpeed (fd s : Nat) : (SysEvent.ioctlWrSpeed fd s).isClose = false := rfl

@[simp]
lemma isClose_ioctlRdSpeed (fd : Nat) : (SysEvent.ioctlRdSpeed fd).isClose = false := rfl

@[simp]
lemma isClose_ioctlWrBpw (fd b : Nat) : (SysEvent.ioctlWrBpw fd b).isClose = false := rfl

@[simp]
lemma isClose_ioctlRdBpw (fd : Nat) : (SysEvent.ioctlRdBpw fd).isClose = false := rfl

@[simp]
lemma isClose_ioctlMessage (fd : Nat) (t : SpiIocTransfer) :
    (SysEvent.ioctlMessage fd t).isClose = false := rfl

lemma filter_isClose_spiSetMode (env : SpiEnv) (fd m : Nat) :
    ((spiSetMode env fd m).2).filter SysEvent.isClose = [] := by
  unfold spiSetMode
  cases hw : env.wrMode fd (m % 256)
  · rfl
  · rcases hr : env.rdMode fd with _ | v <;> simp [hr, SysEvent.isClose]

lemma filter_isClose_spiSetSpeed (env : SpiEnv) (fd s : Nat) :
    ((spiSetSpeed env fd s).2).filter SysEvent.isClose = [] := by
  unfold spiSetSpeed
  cases hw : env.wrSpeed fd (s % 2 ^ 32)
  · rfl
  · rcases hr : env.rdSpeed fd with _ | v <;> simp [hr, SysEvent.isClose]

lemma filter_isClose_spiSetBitsPerWord (env : SpiEnv) (fd b : Nat) :
    ((spiSetBitsPerWord env fd b).2).filter SysEvent.isClose = [] := by
  unfold spiSetBitsPerWord
  cases hw : env.wrBpw fd (b % 256)
  · rfl
  · rcases hr : env.rdBpw fd with _ | v <;> simp [hr, SysEvent.isClose]

/-- C6: the low-level transfer primitive always hands the kernel a
transfer descriptor with clock speed 10000 Hz, 8 bits per word and
exactly the requested length, whatever the environment (and hence
whatever configuration was applied earlier). -/
theorem spiTransfer_fixed_params (env : SpiEnv) (fd : Nat) (tx rx : List Nat) (len : Nat) :
    ∃ t : SpiIocTransfer, (spiTransfer env fd tx rx len).2.2 = [SysEvent.ioctlMessage fd t] ∧
      t.speed_hz = 10000 ∧ t.bits_per_word = 8 ∧ t.len = len ∧
      t.tx_buf = tx ∧ t.rx_buf = rx :=
  ⟨⟨tx, rx, len, 10000, 8⟩, spiTransfer_trace env fd tx rx len, rfl, rfl, rfl, rfl, rfl⟩

/-- C3: spiWriteBytes always passes the one-byte buffer [0x00] as the
receive buffer of a len-byte transfer, so for any len of at least 2 the
receive capacity it supplies is strictly smaller than the transfer
length. -/
theorem spiWriteBytes_rx_buffer_single_byte (env : SpiEnv) (fd : Nat)
    (data : List Nat) (len : Nat) :
    (spiWriteBytes env fd data len).2 =
      [SysEvent.ioctlMessage fd ⟨data, [0x00], len, 10000, 8⟩] ∧
    (SpiIocTransfer.mk data [0x00] len 10000 8).rx_buf.length = 1 := by
  constructor
  · unfold spiWriteBytes
    rcases h : spiTransfer env fd data [0x00] len with ⟨r, rx2, evs⟩
    have := spiTransfer_trace env fd data [0x00] len
    rw [h] at this
    simpa using this
  · rfl

/-- C1: spiOpen never issues a close system call on any path, so when
the device path opens but a configuration step fails it returns -1 while
leaking the open descriptor; concretely, in an environment where open
yields descriptor 3 and the mode ioctl fails, spiOpen returns -1 and its
trace holds the open call and the failed ioctl but no close. -/
theorem spiOpen_leaks_fd_on_config_failure :
    (∀ (env : SpiEnv) (bus device speed mode bpw : Nat),
      ((spiOpen env bus device speed mode bpw).2).filter SysEvent.isClose = []) ∧
    spiOpen envModeFail 0 1 500000 0 8 =
      (-1, [SysEvent.openCall (fsBuf 0 1), SysEvent.ioctlWrMode 3 0]) := by
  constructor
  · intro env bus device speed mode bpw
    unfold spiOpen
    rcases ho : env.openResult (fsBuf (bus % 256) (device % 256)) with _ | fd
    · simp [ho]
    · have f1 := filter_isClose_spiSetMode env fd mode
      have f2 := filter_isClose_spiSetSpeed env fd speed
      have f3 := filter_isClose_spiSetBitsPerWord env fd bpw
      rcases h1 : spiSetMode env fd mode with ⟨r1, e1⟩
      rcases h2 : spiSetSpeed env fd speed with ⟨r2, e2⟩
      rcases h3 : spiSetBitsPerWord env fd bpw with ⟨r3, e3⟩
      rw [h1] at f1
      rw [h2] at f2
      rw [h3] at f3
      simp only [ho, h1, h2, h3]
      by_cases hr1 : r1 = -1 <;> by_cases hr2 : r2 = -1 <;> by_cases hr3 : r3 = -1 <;>
        simp [hr1, hr2, hr3, List.filter_append, List.filter_cons, f1, f2, f3]
  · decide

set_option maxRecDepth 4000

lemma readByteCmd_fin : ∀ r : Fin 64, (0x80 ||| r.1) % 256 = 0x80 ||| r.1 := by decide

lemma readByteCmd_mod (r : Nat) (h : r ≤ 63) : (0x80 ||| r) % 256 = 0x80 ||| r :=
  readByteCmd_fin ⟨r, by omega⟩

lemma readBytesCmd_fin : ∀ s : Fin 64, (0x80 ||| 0x40 ||| s.1) % 256 = 0xC0 ||| s.1 := by decide

lemma readBytesCmd_mod (s : Nat) (h : s ≤ 63) : (0x80 ||| 0x40 ||| s) % 256 = 0xC0 ||| s :=
  readBytesCmd_fin ⟨s, by omega⟩

/-- C5: for a register address in [0, 63], spiReadByte issues one 2-byte
transfer whose transmit frame is [0x80 | regAdd, 0], and when the device
answers with a 2-byte receive buffer the function returns its byte at
index 1 (the first received byte is discarded). -/
theorem spiReadByte_frame_and_result (env : SpiEnv) (fd regAdd : Nat) (resp : List Nat)
    (hra : regAdd ≤ 63)
    (hresp : env.message fd ⟨[(0x80 ||| regAdd) % 256, 0], [0, 0], 2, 10000, 8⟩ = some resp)
    (hrlen : resp.length = 2) :
    (spiReadByte env fd regAdd).2 =
      [SysEvent.ioctlMessage fd ⟨[0x80 ||| regAdd, 0], [0, 0], 2, 10000, 8⟩] ∧
    (spiReadByte env fd regAdd).1 = (resp.getD 1 0 : Nat) := by
  have hmod := readByteCmd_mod regAdd hra
  rw [hmod] at hresp
  have htake : resp.take 2 = resp := by rw [← hrlen]; exact List.take_length resp
  simp only [spiReadByte]
  rw [hmod, spiTransfer_ok env fd [0x80 ||| regAdd, 0] [0, 0] 2 resp hresp]
  simp [htake]

/-- C4: for length at least 1 and a start address in [0, 63],
spiReadBytes issues one transfer of exactly length + 1 bytes whose
transmit frame starts with 0xC0 | startAdd followed by zeros, and when
the device answers with length + 1 received bytes the returned buffer is
exactly the received bytes at offsets 1 .. length (length bytes: the
command echo at offset 0 is dropped). -/
theorem spiReadBytes_frame_and_result (env : SpiEnv) (fd len startAdd : Nat)
    (rxStack resp : List Nat) (hlen : 1 ≤ len) (hsa : startAdd ≤ 63)
    (hrx : rxStack.length = len + 1)
    (hresp : env.message fd
      ⟨(List.replicate (len + 1) 0).set 0 ((0x80 ||| 0x40 ||| startAdd) % 256),
       rxStack, len + 1, 10000, 8⟩ = some resp)
    (hrlen : resp.length = len + 1) :
    (spiReadBytes env fd len startAdd rxStack).2 =
      [SysEvent.ioctlMessage fd
        ⟨(0xC0 ||| startAdd) :: List.replicate len 0, rxStack, len + 1, 10000, 8⟩] ∧
    (spiReadBytes env fd len startAdd rxStack).1 = resp.drop 1 ∧
    (spiReadBytes env fd len startAdd rxStack).1.length = len := by
  have htx : (List.replicate (len + 1) 0).set 0 ((0x80 ||| 0x40 ||| startAdd) % 256) =
      (0xC0 ||| startAdd) :: List.replicate len 0 := by
    rw [List.replicate_succ, List.set_cons_zero, readBytesCmd_mod startAdd hsa]
  rw [htx] at hresp
  have htake : resp.take (len + 1) = resp := by rw [← hrlen]; exact List.take_length resp
  have hdrop : rxStack.drop (len + 1) = [] := by rw [← hrx]; exact List.drop_length rxStack
  have hlen2 : (resp.drop 1).length = len := by simp [hrlen]
  have htake2 : (resp.drop 1).take len = resp.drop 1 := by
    rw [← hlen2]; exact List.take_length (resp.drop 1)
  simp only [spiReadBytes]
  rw [htx, spiTransfer_ok env fd ((0xC0 ||| startAdd) :: List.replicate len 0) rxStack
    (len + 1) resp hresp]
  simp [htake, hdrop, htake2, hlen2]
  omega

/-- C7: spiWriteRegByte issues one 2-byte transfer whose transmit frame
is exactly [regAdd, data], with a zeroed 2-byte receive buffer that the
function discards, and returns 0 (in particular whenever the underlying
transfer does not error). -/
theorem spiWriteRegByte_frame (env : SpiEnv) (fd regAdd data : Nat)
    (hra : regAdd ≤ 255) (hd : data ≤ 255) :
    (spiWriteRegByte env fd regAdd data).2 =
      [SysEvent.ioctlMessage fd ⟨[regAdd, data], [0, 0], 2, 10000, 8⟩] ∧
    (spiWriteRegByte env fd regAdd data).1 = 0 := by
  have h1 : regAdd % 256 = regAdd := Nat.mod_eq_of_lt (by omega)
  have h2 : data % 256 = data := Nat.mod_eq_of_lt (by omega)
  simp only [spiWriteRegByte]
  rw [h1, h2]
  rcases ht : spiTransfer env fd [regAdd, data] [0, 0] 2 with ⟨r, rx2, evs⟩
  have htr := spiTransfer_trace env fd [regAdd, data] [0, 0] 2
  rw [ht] at htr
  simpa using htr

/-- C7 witness: at register 0x2A and data 0x55 against the cooperative
device, the frame is [0x2A, 0x55] and the call reports 0. -/
theorem spiWriteRegByte_frame_witness :
    (spiWriteRegByte envZeroOk 3 0x2A 0x55).2 =
      [SysEvent.ioctlMessage 3 ⟨[0x2A, 0x55], [0, 0], 2, 10000, 8⟩] ∧
    (spiWriteRegByte envZeroOk 3 0x2A 0x55).1 = 0 :=
  spiWriteRegByte_frame envZeroOk 3 0x2A 0x55 (by decide) (by decide)

/-- Every transfer answers with the fixed 2-byte pattern [0xAA, 0x42]. -/
def envByte : SpiEnv where
  openResult := fun _ => some 3
  wrMode := fun _ _ => true
  rdMode := fun _ => some 0
  wrSpeed := fun _ _ => true
  rdSpeed := fun _ => some 0
  wrBpw := fun _ _ => true
  rdBpw := fun _ => some 0
  message := fun _ _ => some [0xAA, 0x42]

/-- C5 witness: register 5 against a device answering [0xAA, 0x42]: the
frame is [0x80 | 5, 0] and the call returns 0x42, the second received
byte. -/
theorem spiReadByte_frame_and_result_witness :
    (spiReadByte envByte 3 5).2 =
      [SysEvent.ioctlMessage 3 ⟨[0x80 ||| 5, 0], [0, 0], 2, 10000, 8⟩] ∧
    (spiReadByte envByte 3 5).1 = 0x42 := by
  have h := spiReadByte_frame_and_result envByte 3 5 [0xAA, 0x42] (by decide) rfl (by decide)
  exact ⟨h.1, h.2.trans (by decide)⟩

/-- C4 witness: length 3 from start address 5 against a device answering
[0xAA, 1, 2, 3]: the returned buffer is [1, 2, 3], the received bytes
with the command echo at offset 0 dropped. -/
theorem spiReadBytes_frame_and_result_witness :
    (spiReadBytes envPattern 3 3 5 [0, 0, 0, 0]).1 = [1, 2, 3] := by
  have h := spiReadBytes_frame_and_result envPattern 3 3 5 [0, 0, 0, 0] [0xAA, 1, 2, 3]
    (by decide) (by decide) (by decide) rfl (by decide)
  exact h.2.1.trans (by decide)

/-- C2 counterexample: with every transfer ioctl failing, spiReadByte
still returns the data byte 0 — the very value a successful read of a
zero register yields (second conjunct) — and spiReadBytes still returns
a 2-byte buffer (copied from the uninitialized receive buffer [7, 7, 7])
instead of any error value. -/
theorem spiRead_error_not_surfaced_cex :
    (spiReadByte envXferFail 3 5).1 = 0 ∧
    (spiReadByte envZeroOk 3 5).1 = 0 ∧
    (spiReadBytes envXferFail 3 2 5 [7, 7, 7]).1 = [7, 7] := by decide

/-- C2 amended: spiReadByte and spiReadBytes ignore the result of
spiTransfer; when every transfer ioctl fails, spiReadByte returns the
byte 0 read out of its zeroed receive buffer, and spiReadBytes returns
the length-byte copy of its untouched (uninitialized) receive buffer at
offsets 1 .. len — in neither case an error value. -/
theorem spiRead_ignores_transfer_errors (env : SpiEnv) (fd regAdd len startAdd : Nat)
    (rxStack : List Nat) (hfail : ∀ t, env.message fd t = none) :
    (spiReadByte env fd regAdd).1 = 0 ∧
    (spiReadBytes env fd len startAdd rxStack).1 = (rxStack.drop 1).take len := by
  constructor
  · simp only [spiReadByte]
    rw [spiTransfer_err env fd [(0x80 ||| regAdd) % 256, 0] [0, 0] 2 (hfail _)]
    rfl
  · simp only [spiReadBytes]
    rw [spiTransfer_err env fd
      ((List.replicate (len + 1) 0).set 0 ((0x80 ||| 0x40 ||| startAdd) % 256)) rxStack
      (len + 1) (hfail _)]

/-- C2 amended witness: a concrete run of the amended statement with a
failing device. -/
theorem spiRead_ignores_transfer_errors_witness :
    (spiReadByte envXferFail 4 9).1 = 0 ∧
    (spiReadBytes envXferFail 4 2 9 [5, 6, 7]).1 = [6, 7] := by
  have h := spiRead_ignores_transfer_errors envXferFail 4 9 2 9 [5, 6, 7] (fun t => rfl)
  exact ⟨h.1, h.2.trans (by decide)⟩

lemma spiSetMode_eq_zero_iff (env : SpiEnv) (fd m : Nat) :
    (spiSetMode env fd m).1 = 0 ↔
      env.wrMode fd (m % 256) = true ∧ (env.rdMode fd).isSome = true := by
  unfold spiSetMode
  cases hw : env.wrMode fd (m % 256)
  · simp [hw]
  · rcases hr : env.rdMode fd with _ | v <;> simp [hw, hr]

lemma spiSetSpeed_eq_zero_iff (env : SpiEnv) (fd s : Nat) :
    (spiSetSpeed env fd s).1 = 0 ↔
      env.wrSpeed fd (s % 2 ^ 32) = true ∧ (env.rdSpeed fd).isSome = true := by
  unfold spiSetSpeed
  cases hw : env.wrSpeed fd (s % 2 ^ 32)
  · simp [hw]
  · rcases hr : env.rdSpeed fd with _ | v <;> simp [hw, hr]

lemma spiSetBitsPerWord_eq_zero_iff (env : SpiEnv) (fd b : Nat) :
    (spiSetBitsPerWord env fd b).1 = 0 ↔
      env.wrBpw fd (b % 256) = true ∧ (env.rdBpw fd).isSome = true := by
  unfold spiSetBitsPerWord
  cases hw : env.wrBpw fd (b % 256)
  · simp [hw]
  · rcases hr : env.rdBpw fd with _ | v <;> simp [hw, hr]

lemma spiSetMode_result_cases (env : SpiEnv) (fd m : Nat) :
    (spiSetMode env fd m).1 = 0 ∨ (spiSetMode env fd m).1 = -1 := by
  unfold spiSetMode
  cases hw : env.wrMode fd (m % 256)
  · right; simp [hw]
  · rcases hr : env.rdMode fd with _ | v
    · right; simp [hw, hr]
    · left; simp [hw, hr]

lemma spiSetSpeed_result_cases (env : SpiEnv) (fd s : Nat) :
    (spiSetSpeed env fd s).1 = 0 ∨ (spiSetSpeed env fd s).1 = -1 := by
  unfold spiSetSpeed
  cases hw : env.wrSpeed fd (s % 2 ^ 32)
  · right; simp [hw]
  · rcases hr : env.rdSpeed fd with _ | v
    · right; simp [hw, hr]
    · left; simp [hw, hr]

lemma spiSetBitsPerWord_result_cases (env : SpiEnv) (fd b : Nat) :
    (spiSetBitsPerWord env fd b).1 = 0 ∨ (spiSetBitsPerWord env fd b).1 = -1 := by
  unfold spiSetBitsPerWord
  cases hw : env.wrBpw fd (b % 256)
  · right; simp [hw]
  · rcases hr : env.rdBpw fd with _ | v
    · right; simp [hw, hr]
    · left; simp [hw, hr]

lemma neg_one_iff_of_cases {x : Int} (hc : x = 0 ∨ x = -1) {P : Prop} (h0 : x = 0 ↔ P) :
    x = -1 ↔ ¬P := by
  constructor
  · intro h hP
    rcases hc with h2 | h2
    · rw [h2] at h; exact absurd h (by decide)
    · rw [h] at h0; exact absurd (h0.mpr hP) (by decide)
  · intro hP
    rcases hc with h2 | h2
    · exact absurd (h0.mp h2) hP
    · exact h2

/-- C8: each setter succeeds exactly when both its write ioctl and its
read-back ioctl succeed, and the value the read back delivers is never
compared against the intended one: for any read-back value v (matching
the intended value or not) a successful write followed by a successful
read back yields 0. -/
theorem spiSet_write_readback_never_compared (env : SpiEnv) (fd mode speed bpw : Nat) :
    ((spiSetMode env fd mode).1 = 0 ↔
      env.wrMode fd (mode % 256) = true ∧ (env.rdMode fd).isSome = true) ∧
    ((spiSetMode env fd mode).1 = -1 ↔
      ¬(env.wrMode fd (mode % 256) = true ∧ (env.rdMode fd).isSome = true)) ∧
    ((spiSetSpeed env fd speed).1 = 0 ↔
      env.wrSpeed fd (speed % 2 ^ 32) = true ∧ (env.rdSpeed fd).isSome = true) ∧
    ((spiSetSpeed env fd speed).1 = -1 ↔
      ¬(env.wrSpeed fd (speed % 2 ^ 32) = true ∧ (env.rdSpeed fd).isSome = true)) ∧
    ((spiSetBitsPerWord env fd bpw).1 = 0 ↔
      env.wrBpw fd (bpw % 256) = true ∧ (env.rdBpw fd).isSome = true) ∧
    ((spiSetBitsPerWord env fd bpw).1 = -1 ↔
      ¬(env.wrBpw fd (bpw % 256) = true ∧ (env.rdBpw fd).isSome = true)) ∧
    (∀ v, env.wrMode fd (mode % 256) = true → env.rdMode fd = some v →
      (spiSetMode env fd mode).1 = 0) ∧
    (∀ v, env.wrSpeed fd (speed % 2 ^ 32) = true → env.rdSpeed fd = some v →
      (spiSetSpeed env fd speed).1 = 0) ∧
    (∀ v, env.wrBpw fd (bpw % 256) = true → env.rdBpw fd = some v →
      (spiSetBitsPerWord env fd bpw).1 = 0) := by
  refine ⟨spiSetMode_eq_zero_iff env fd mode,
    neg_one_iff_of_cases (spiSetMode_result_cases env fd mode)
      (spiSetMode_eq_zero_iff env fd mode),
    spiSetSpeed_eq_zero_iff env fd speed,
    neg_one_iff_of_cases (spiSetSpeed_result_cases env fd speed)
      (spiSetSpeed_eq_zero_iff env fd speed),
    spiSetBitsPerWord_eq_zero_iff env fd bpw,
    neg_one_iff_of_cases (spiSetBitsPerWord_result_cases env fd bpw)
      (spiSetBitsPerWord_eq_zero_iff env fd bpw), ?_, ?_, ?_⟩
  · intro v hw hr
    exact (spiSetMode_eq_zero_iff env fd mode).mpr ⟨hw, by rw [hr]; rfl⟩
  · intro v hw hr
    exact (spiSetSpeed_eq_zero_iff env fd speed).mpr ⟨hw, by rw [hr]; rfl⟩
  · intro v hw hr
    exact (spiSetBitsPerWord_eq_zero_iff env fd bpw).mpr ⟨hw, by rw [hr]; rfl⟩

/-- C8 witness: against a device whose read backs all answer 99 while
mode 0, speed 0 and bpw 0 were requested, every setter still reports
success, and the read-back value really is 99. -/
theorem spiSet_write_readback_never_compared_witness :
    (spiSetMode envMismatch 3 0).1 = 0 ∧ (spiSetSpeed envMismatch 3 0).1 = 0 ∧
    (spiSetBitsPerWord envMismatch 3 0).1 = 0 ∧ envMismatch.rdMode 3 = some 99 := by
  have h := spiSet_write_readback_never_compared envMismatch 3 0 0 0
  exact ⟨h.2.2.2.2.2.2.1 99 rfl rfl, h.2.2.2.2.2.2.2.1 99 rfl rfl,
    h.2.2.2.2.2.2.2.2 99 rfl rfl, rfl⟩

/-- C9 counterexample: an unreachable device path and a reachable path
whose mode configuration fails produce the identical error result -1
from spiOpen, so a configuration failure is not reported as an error
value distinct from an open failure. -/
theorem spiOpen_error_values_conflated_cex :
    (spiOpen envOpenFail 1 2 100 0 8).1 = -1 ∧
    (spiOpen envModeFail 1 2 100 0 8).1 = -1 ∧
    envOpenFail.openResult (fsBuf 1 2) = none ∧
    envModeFail.openResult (fsBuf 1 2) = some 3 := by decide

/-- C9 amended: when the device path cannot be opened, spiOpen returns
-1 having issued only the open call (no configuration ioctl is
performed); when the path opens but a configuration step fails, spiOpen
also returns -1 — the same single error value, so the two failure kinds
are not distinguished. -/
theorem spiOpen_openfail_no_config_and_single_error (env : SpiEnv)
    (bus device speed mode bpw : Nat) :
    (env.openResult (fsBuf (bus % 256) (device % 256)) = none →
      spiOpen env bus device speed mode bpw =
        (-1, [SysEvent.openCall (fsBuf (bus % 256) (device % 256))])) ∧
    (∀ fd, env.openResult (fsBuf (bus % 256) (device % 256)) = some fd →
      ((spiSetMode env fd mode).1 = -1 ∨ (spiSetSpeed env fd speed).1 = -1 ∨
        (spiSetBitsPerWord env fd bpw).1 = -1) →
      (spiOpen env bus device speed mode bpw).1 = -1) := by
  constructor
  · intro h
    simp [spiOpen, h]
  · intro fd hfd hcfg
    simp only [spiOpen]
    rcases h1 : spiSetMode env fd mode with ⟨r1, e1⟩
    rcases h2 : spiSetSpeed env fd speed with ⟨r2, e2⟩
    rcases h3 : spiSetBitsPerWord env fd bpw with ⟨r3, e3⟩
    rw [h1, h2, h3] at hcfg
    simp only [hfd, h1, h2, h3]
    by_cases hr1 : r1 = -1
    · simp [hr1]
    · by_cases hr2 : r2 = -1
      · simp [hr1, hr2]
      · by_cases hr3 : r3 = -1
        · simp [hr1, hr2, hr3]
        · exfalso
          simp only at hcfg
          rcases hcfg with h | h | h
          · exact hr1 h
          · exact hr2 h
          · exact hr3 h

/-- C9 amended witness: against the environment whose open always fails,
spiOpen returns -1 with a trace holding only the open call. -/
theorem spiOpen_openfail_no_config_witness :
    spiOpen envOpenFail 0 0 100 0 8 = (-1, [SysEvent.openCall (fsBuf 0 0)]) :=
  (spiOpen_openfail_no_config_and_single_error envOpenFail 0 0 100 0 8).1 rfl

lemma toDigits_length_le_three : ∀ n : Fin 256, (Nat.toDigits 10 n.1).length ≤ 3 := by decide

/-- C10: for bus and device both at most 255 the formatted device path
fits the 50-byte buffer without truncation: snprintf leaves it whole,
its length plus the terminating byte is at most 19, 19 is strictly below
MAX_PATH = 50, and the longest case is exactly "/dev/spidev255.255". -/
theorem fsBuf_no_truncation (bus device : Nat) (hb : bus ≤ 255) (hd : device ≤ 255) :
    fsBuf bus device = devPathChars bus device ∧
    (devPathChars bus device).length + 1 ≤ 19 ∧
    19 < MAX_PATH ∧
    devPathChars 255 255 = "/dev/spidev255.255".toList := by
  have h1 : (Nat.toDigits 10 bus).length ≤ 3 := toDigits_length_le_three ⟨bus, by omega⟩
  have h2 : (Nat.toDigits 10 device).length ≤ 3 := toDigits_length_le_three ⟨device, by omega⟩
  have h0 : ("/dev/spidev".toList).length = 11 := by decide
  have hlen : (devPathChars bus device).length + 1 ≤ 19 := by
    unfold devPathChars
    simp only [List.length_append, List.length_cons, List.length_nil, h0]
    omega
  refine ⟨?_, hlen, by decide, by decide⟩
  unfold fsBuf snprintfModel MAX_PATH
  exact List.take_of_length_le (by omega)

/-- C10 witness: the extreme case bus = device = 255. -/
theorem fsBuf_no_truncation_witness :
    fsBuf 255 255 = devPathChars 255 255 ∧ (devPathChars 255 255).length + 1 ≤ 19 := by
  have h := fsBuf_no_truncation 255 255 (by omega) (by omega)
  exact ⟨h.1, h.2.1⟩
